import Mathlib

/-!
Verification of the IMAPViewer launcher (`src/launcher/main.cpp`).

The launcher is a short, linear Windows program: it resolves the directory
of its own executable, builds the path `<dir>\app\imapviewer.exe`, checks
that this file exists, spawns it as a child process with working directory
`<dir>\app`, waits for the child, and forwards the child's exit code.

We embed the program shallowly.  The operating system is an oracle record
`OS`: it supplies the module file name, the result of the existence check,
the outcome of `CreateProcessW` (handles or failure plus `GetLastError`),
and the outcome of `GetExitCodeProcess`.  C++ operations that can throw
(string construction, `std::filesystem::exists`) have explicit injection
points so the top-level `try`/`catch` of `main` can be analysed.  The
observable behaviour of a run is an exit code together with a trace of
events: process-creation calls, waits, handle closes, message boxes and
error-stream writes.
-/

/-- Exceptions that C++ code inside the `try` block of `main` can raise:
a `std::exception` carrying its `what()` string, or anything else
(caught by `catch (...)`). -/
inductive Exn where
  | stdExn (what : String)
  | unknown
deriving DecidableEq, Repr

/-- Observable effects of one launcher run, in order of occurrence. -/
inductive Event where
  | createProcessCall (appName cmdLine workingDir : String)
  | waitCall (h : Nat)
  | getExitCodeCall (h : Nat)
  | closeHandleCall (h : Nat)
  | messageBoxCall (text title : String)
  | stderrWrite (msg : String)
deriving DecidableEq, Repr

/-- Oracle for everything the launcher obtains from the operating system,
plus ambient state (current directory, environment, command-line arguments)
that the program could in principle query but never does, and explicit
injection points for the C++ operations inside the `try` block that can
throw. -/
structure OS where
  /-- result of `GetModuleFileNameW(NULL, ...)`: the launcher's own path. -/
  moduleFileName : String
  /-- exception thrown during `GetExecutableDirectory` (wstring operations). -/
  resolveExn : Option Exn
  /-- exception thrown while concatenating the target path. -/
  targetConcatExn : Option Exn
  /-- outcome of `fs::exists` on a path: a boolean, or a thrown exception. -/
  existsOutcome : String → Except Exn Bool
  /-- exception thrown while building the not-found error message. -/
  errMsgExn : Option Exn
  /-- exception thrown while concatenating the working directory. -/
  appDirExn : Option Exn
  /-- exception thrown while building the command line in `LaunchApplication`. -/
  cmdLineExn : Option Exn
  /-- outcome of `CreateProcessW appName cmdLine workingDir`:
  `none` on failure, `some (hProcess, hThread)` on success. -/
  createProcessOutcome : String → String → String → Option (Nat × Nat)
  /-- value of `GetLastError()` after a failed `CreateProcessW`. -/
  lastError : Nat
  /-- outcome of `GetExitCodeProcess`: `none` if the call fails (the output
  variable is left untouched), `some c` if it stores the child's code `c`. -/
  exitCodeOutcome : Option Nat
  /-- current working directory of the launcher (never read by the code). -/
  cwd : String
  /-- environment of the launcher (never read by the code). -/
  env : List (String × String)
  /-- command-line arguments of the launcher (never read by the code). -/
  args : List String

/-- Index of the last occurrence of character `c` in `l`
(`std::wstring::find_last_of` restricted to a one-character set). -/
def lastIndexOf (l : List Char) (c : Char) : Option Nat :=
  match l with
  | [] => none
  | a :: rest =>
    match lastIndexOf rest c with
    | some i => some (i + 1)
    | none => if a = c then some 0 else none

/-- Embedding of `GetExecutableDirectory`: take the module file name,
find the last backslash, and return the prefix before it; if there is
no backslash, return `"."`. -/
def GetExecutableDirectory (execPath : String) : String :=
  match lastIndexOf execPath.data '\\' with
  | some i => ⟨execPath.data.take i⟩
  | none => "."

/-- Embedding of `ShowError`: a modal message box with the fixed title,
then the same text on the error stream. -/
def ShowError (message : String) : List Event :=
  [Event.messageBoxCall message "IMAPViewer Launcher Error",
   Event.stderrWrite message]

/-- `static_cast<int>` of a `DWORD` value (two's-complement reading of the
low 32 bits). -/
def int32OfUInt32 (n : Nat) : Int :=
  if n % 2 ^ 32 < 2 ^ 31 then ((n % 2 ^ 32 : Nat) : Int)
  else ((n % 2 ^ 32 : Nat) : Int) - 2 ^ 32

/-- A C `int` returned from `main` becomes the process exit code, a
`DWORD`: the value reduced modulo `2^32`. -/
def uint32OfInt (i : Int) : Nat := (i % (2 ^ 32 : Int)).toNat

/-- Embedding of `LaunchApplication`: build the quoted command line, call
`CreateProcessW`; on failure write the `GetLastError` code to the error
stream and return `1`; on success wait for the child, query its exit code
into a variable initialised to `0` (ignoring whether the query succeeds),
close both handles and return the exit code cast to `int`.  The result is
`Except`: `error` when a C++ exception escapes (command-line construction),
`ok` with the returned value and emitted events otherwise. -/
def LaunchApplication (os : OS) (executablePath workingDir : String) :
    Except (Exn × List Event) (Int × List Event) :=
  match os.cmdLineExn with
  | some e => .error (e, [])
  | none =>
    let cmdLine := "\"" ++ executablePath ++ "\""
    match os.createProcessOutcome executablePath cmdLine workingDir with
    | none =>
      .ok (1, [Event.createProcessCall executablePath cmdLine workingDir,
               Event.stderrWrite
                 ("Failed to launch application. Error code: " ++
                  toString os.lastError)])
    | some (hProc, hThread) =>
      let exitCode : Nat :=
        match os.exitCodeOutcome with
        | none => 0
        | some c => c % 2 ^ 32
      .ok (int32OfUInt32 exitCode,
           [Event.createProcessCall executablePath cmdLine workingDir,
            Event.waitCall hProc,
            Event.getExitCodeCall hProc,
            Event.closeHandleCall hProc,
            Event.closeHandleCall hThread])

/-- Target path computed by `main` from the launcher directory:
`launcherDir + "\\app\\imapviewer.exe"`. -/
def targetExeOf (launcherDir : String) : String :=
  launcherDir ++ "\\app\\imapviewer.exe"

/-- Working directory computed by `main` for the child:
`launcherDir + "\\app"`. -/
def appDirOf (launcherDir : String) : String :=
  launcherDir ++ "\\app"

/-- The launcher directory a run resolves: `GetExecutableDirectory`
applied to the module file name. -/
def launcherDirOf (os : OS) : String :=
  GetExecutableDirectory os.moduleFileName

/-- The target path a run computes. -/
def targetPathOf (os : OS) : String :=
  targetExeOf (launcherDirOf os)

/-- Not-found error message built by `main`, containing the attempted
path. -/
def notFoundMsg (targetExe : String) : String :=
  "Could not find the main application at:\n" ++ targetExe ++
    "\n\nPlease ensure the application is properly installed."

/-- Body of the `try` block of `main`: resolve the launcher directory,
build the target path, check existence; if the target is missing show the
not-found error and return `1`, otherwise launch it with `<dir>\app` as
working directory.  `error` means a C++ exception escaped the block,
carrying the events emitted before the throw. -/
def tryBody (os : OS) : Except (Exn × List Event) (Int × List Event) :=
  match os.resolveExn with
  | some e => .error (e, [])
  | none =>
    let launcherDir := GetExecutableDirectory os.moduleFileName
    match os.targetConcatExn with
    | some e => .error (e, [])
    | none =>
      let targetExe := targetExeOf launcherDir
      match os.existsOutcome targetExe with
      | .error e => .error (e, [])
      | .ok ex =>
        if !ex then
          match os.errMsgExn with
          | some e => .error (e, [])
          | none => .ok (1, ShowError (notFoundMsg targetExe))
        else
          match os.appDirExn with
          | some e => .error (e, [])
          | none => LaunchApplication os targetExe (appDirOf launcherDir)

/-- Message produced by the `catch` clauses of `main`: for a
`std::exception` the prefix `"Unexpected error: "` plus `what()`
(widened character by character), for anything else a fixed generic
sentence. -/
def catchMessage : Exn → String
  | .stdExn w => "Unexpected error: " ++ w
  | .unknown => "An unexpected error occurred while launching the application."

/-- Embedding of `main`: run the `try` body; on a caught exception show
the corresponding error message and return `1`. -/
def mainE (os : OS) : Int × List Event :=
  match tryBody os with
  | .ok r => r
  | .error (e, t) => (1, t ++ ShowError (catchMessage e))

/-- Exit code of the launcher process as the operating system reports it:
the `int` returned from `main`, reduced to a `DWORD`. -/
def processExitCode (os : OS) : Nat :=
  uint32OfInt (mainE os).1

/-- Predicate satisfied by process-creation events only. -/
def isCreate : Event → Bool
  | .createProcessCall _ _ _ => true
  | _ => false

/-- Predicate satisfied by message-box events only. -/
def isDialog : Event → Bool
  | .messageBoxCall _ _ => true
  | _ => false

/-- An `OS` oracle with no exception injections whose checks and calls
all succeed; used to instantiate theorems on concrete runs. -/
def osOk : OS where
  moduleFileName := "C:\\IMAPViewer\\launcher.exe"
  resolveExn := none
  targetConcatExn := none
  existsOutcome := fun _ => .ok true
  errMsgExn := none
  appDirExn := none
  cmdLineExn := none
  createProcessOutcome := fun _ _ _ => some (7, 8)
  lastError := 0
  exitCodeOutcome := some 42
  cwd := "C:\\Windows\\System32"
  env := [("PATH", "C:\\Windows")]
  args := []

/-- An `OS` oracle on which `CreateProcessW` fails with error code `5`
(access denied); everything before the spawn succeeds. -/
def osSpawnFail : OS :=
  {osOk with createProcessOutcome := fun _ _ _ => none, lastError := 5}

/-- An `OS` oracle identical to `osOk` except for ambient state the code
never reads (working directory, environment, arguments) and the outcomes
of later calls. -/
def osAlt : OS :=
  {osOk with cwd := "D:\\Elsewhere", env := [], args := ["--verbose"],
             existsOutcome := fun _ => .ok false, exitCodeOutcome := none}

/-- An `OS` oracle on which the very first step (resolving the launcher
directory) throws a `std::exception`. -/
def osThrow : OS :=
  {osOk with resolveExn := some (Exn.stdExn "bad alloc")}

/-- An `OS` oracle on which everything succeeds except the
`GetExitCodeProcess` query. -/
def osQueryFail : OS :=
  {osOk with exitCodeOutcome := none}

/-- No exception is injected at any of the throw points of the run. -/
def noThrow (os : OS) : Prop :=
  os.resolveExn = none ∧ os.targetConcatExn = none ∧ os.errMsgExn = none ∧
    os.appDirExn = none ∧ os.cmdLineExn = none

instance (os : OS) : Decidable (noThrow os) := by
  unfold noThrow; infer_instance

/-- Stderr line written by `LaunchApplication` when `CreateProcessW`
fails, with the `GetLastError` value. -/
def spawnFailMsg (err : Nat) : String :=
  "Failed to launch application. Error code: " ++ toString err

theorem tryBody_notFound (os : OS)
    (h1 : os.resolveExn = none) (h2 : os.targetConcatExn = none)
    (h3 : os.existsOutcome (targetPathOf os) = .ok false)
    (h4 : os.errMsgExn = none) :
    tryBody os = .ok (1, ShowError (notFoundMsg (targetPathOf os))) := by
  unfold tryBody
  simp only [targetPathOf, launcherDirOf] at h3 ⊢
  simp [h1, h2, h3, h4]

theorem tryBody_launch (os : OS)
    (h1 : os.resolveExn = none) (h2 : os.targetConcatExn = none)
    (h3 : os.existsOutcome (targetPathOf os) = .ok true)
    (h4 : os.appDirExn = none) :
    tryBody os =
      LaunchApplication os (targetPathOf os) (appDirOf (launcherDirOf os)) := by
  unfold tryBody
  simp only [targetPathOf, launcherDirOf] at h3 ⊢
  simp [h1, h2, h3, h4]

theorem launch_spawnFail (os : OS) (p w : String)
    (h1 : os.cmdLineExn = none)
    (h2 : os.createProcessOutcome p ("\"" ++ p ++ "\"") w = none) :
    LaunchApplication os p w =
      .ok (1, [Event.createProcessCall p ("\"" ++ p ++ "\"") w,
               Event.stderrWrite (spawnFailMsg os.lastError)]) := by
  unfold LaunchApplication
  rw [h1]
  simp [h2, spawnFailMsg]

theorem launch_spawnOk (os : OS) (p w : String) (hp ht : Nat)
    (h1 : os.cmdLineExn = none)
    (h2 : os.createProcessOutcome p ("\"" ++ p ++ "\"") w = some (hp, ht)) :
    LaunchApplication os p w =
      .ok (int32OfUInt32 (match os.exitCodeOutcome with
                          | none => 0
                          | some c => c % 2 ^ 32),
           [Event.createProcessCall p ("\"" ++ p ++ "\"") w,
            Event.waitCall hp,
            Event.getExitCodeCall hp,
            Event.closeHandleCall hp,
            Event.closeHandleCall ht]) := by
  unfold LaunchApplication
  rw [h1]
  simp [h2]

theorem tryBody_error_trace (os : OS) (e : Exn) (t : List Event)
    (h : tryBody os = .error (e, t)) : t = [] := by
  unfold tryBody LaunchApplication at h
  rcases hex : os.existsOutcome (targetExeOf (GetExecutableDirectory
      os.moduleFileName)) with e2 | b
  all_goals simp only [hex] at h
  all_goals repeat' split at h
  all_goals simp_all

theorem tryBody_ok_shape (os : OS) (c : Int) (t : List Event)
    (h : tryBody os = .ok (c, t)) :
    (c = 1 ∧ t = ShowError (notFoundMsg (targetPathOf os))) ∨
    (c = 1 ∧
      os.createProcessOutcome (targetPathOf os)
        ("\"" ++ targetPathOf os ++ "\"") (appDirOf (launcherDirOf os)) = none ∧
      t = [Event.createProcessCall (targetPathOf os)
             ("\"" ++ targetPathOf os ++ "\"") (appDirOf (launcherDirOf os)),
           Event.stderrWrite (spawnFailMsg os.lastError)]) ∨
    (∃ hp ht,
      os.createProcessOutcome (targetPathOf os)
        ("\"" ++ targetPathOf os ++ "\"") (appDirOf (launcherDirOf os)) =
          some (hp, ht) ∧
      t = [Event.createProcessCall (targetPathOf os)
             ("\"" ++ targetPathOf os ++ "\"") (appDirOf (launcherDirOf os)),
           Event.waitCall hp, Event.getExitCodeCall hp,
           Event.closeHandleCall hp, Event.closeHandleCall ht]) := by
  unfold tryBody LaunchApplication at h
  rcases hex : os.existsOutcome (targetExeOf (GetExecutableDirectory
      os.moduleFileName)) with e2 | b
  all_goals simp only [hex] at h
  all_goals repeat' split at h
  all_goals simp_all [targetPathOf, launcherDirOf, spawnFailMsg]
  all_goals obtain ⟨hc, ht2⟩ := h
  all_goals subst ht2
  all_goals exact Or.inr ⟨_, _, ⟨rfl, rfl⟩, rfl⟩

theorem mainE_of_ok (os : OS) (c : Int) (t : List Event)
    (h : tryBody os = .ok (c, t)) : mainE os = (c, t) := by
  simp [mainE, h]

theorem mainE_of_error (os : OS) (e : Exn) (t : List Event)
    (h : tryBody os = .error (e, t)) :
    mainE os = (1, t ++ ShowError (catchMessage e)) := by
  simp [mainE, h]

theorem create_event_args (os : OS) (a c w : String)
    (hmem : Event.createProcessCall a c w ∈ (mainE os).2) :
    a = targetPathOf os ∧ c = "\"" ++ targetPathOf os ++ "\"" ∧
      w = appDirOf (launcherDirOf os) := by
  rcases htb : tryBody os with ⟨e, t⟩ | ⟨cc, t⟩
  · rw [mainE_of_error os e t htb, tryBody_error_trace os e t htb] at hmem
    simp [ShowError] at hmem
  · rw [mainE_of_ok os cc t htb] at hmem
    rcases tryBody_ok_shape os cc t htb with ⟨_, he⟩ | ⟨_, _, he⟩ |
        ⟨hp, hth, _, he⟩ <;> subst he <;> simp [ShowError] at hmem <;>
      exact hmem

theorem uint32_int32_roundtrip (n : Nat) (h : n < 2 ^ 32) :
    uint32OfInt (int32OfUInt32 n) = n := by
  unfold uint32OfInt int32OfUInt32
  split <;> omega

/-- C1 (counterexample): on an oracle where `CreateProcessW` fails with
error code 5, the run shows no modal dialog at all, refuting the claim
that a spawn failure is surfaced via both a dialog and the error
stream. -/
theorem spawn_failure_shows_no_dialog :
    (mainE osSpawnFail).1 = 1 ∧ (mainE osSpawnFail).2.countP isDialog = 0 := by
  decide

/-- C1 (amended): if `CreateProcessW` fails, the launcher writes one
error-stream message containing the OS-provided error code and exits
with code `1`, but shows no modal dialog. -/
theorem spawn_failure_stderr_only (os : OS)
    (hn : noThrow os)
    (hex : os.existsOutcome (targetPathOf os) = .ok true)
    (hcp : os.createProcessOutcome (targetPathOf os)
        ("\"" ++ targetPathOf os ++ "\"") (appDirOf (launcherDirOf os)) =
      none) :
    (mainE os).1 = 1 ∧
    Event.stderrWrite (spawnFailMsg os.lastError) ∈ (mainE os).2 ∧
    (mainE os).2.countP isDialog = 0 := by
  obtain ⟨h1, h2, h3, h4, h5⟩ := hn
  have hL := tryBody_launch os h1 h2 hex h4
  rw [launch_spawnFail os _ _ h5 hcp] at hL
  rw [mainE_of_ok os _ _ hL]
  simp [isDialog, List.countP_cons, List.countP_nil]

theorem spawn_failure_stderr_only_witness :
    (mainE osSpawnFail).1 = 1 ∧
    Event.stderrWrite (spawnFailMsg osSpawnFail.lastError) ∈
      (mainE osSpawnFail).2 ∧
    (mainE osSpawnFail).2.countP isDialog = 0 :=
  spawn_failure_stderr_only osSpawnFail (by decide) rfl rfl

/-- C2: on the success path, if the child terminates with exit code `N`
(`N < 2^32`) then the launcher's own process exit code is exactly `N`. -/
theorem exit_code_forwarding (os : OS) (N hp hth : Nat)
    (hn : noThrow os)
    (hex : os.existsOutcome (targetPathOf os) = .ok true)
    (hcp : os.createProcessOutcome (targetPathOf os)
        ("\"" ++ targetPathOf os ++ "\"") (appDirOf (launcherDirOf os)) =
      some (hp, hth))
    (hec : os.exitCodeOutcome = some N) (hN : N < 2 ^ 32) :
    processExitCode os = N := by
  obtain ⟨h1, h2, h3, h4, h5⟩ := hn
  have hL := tryBody_launch os h1 h2 hex h4
  rw [launch_spawnOk os _ _ hp hth h5 hcp] at hL
  unfold processExitCode
  rw [mainE_of_ok os _ _ hL]
  simp only [hec]
  rw [Nat.mod_eq_of_lt hN]
  exact uint32_int32_roundtrip N hN

theorem exit_code_forwarding_witness : processExitCode osOk = 42 :=
  exit_code_forwarding osOk 42 7 8 (by decide) rfl rfl rfl (by norm_num)

/-- C3: if the existence check on the computed target path yields `false`,
the launcher never calls `CreateProcessW`, exits with code `1`, and emits
exactly one error report: one dialog plus the same text on the error
stream, with the attempted path contained in the message. -/
theorem existence_gate (os : OS)
    (h1 : os.resolveExn = none) (h2 : os.targetConcatExn = none)
    (h3 : os.existsOutcome (targetPathOf os) = .ok false)
    (h4 : os.errMsgExn = none) :
    (mainE os).1 = 1 ∧
    (∀ a c w, Event.createProcessCall a c w ∉ (mainE os).2) ∧
    (∃ m pre post,
      (mainE os).2 =
        [Event.messageBoxCall m "IMAPViewer Launcher Error",
         Event.stderrWrite m] ∧
      m = pre ++ targetPathOf os ++ post) := by
  have hT := tryBody_notFound os h1 h2 h3 h4
  rw [mainE_of_ok os _ _ hT]
  refine ⟨rfl, ?_, ?_⟩
  · intro a c w hw
    simp [ShowError] at hw
  · exact ⟨notFoundMsg (targetPathOf os),
      "Could not find the main application at:\n",
      "\n\nPlease ensure the application is properly installed.",
      rfl, rfl⟩

theorem existence_gate_witness :
    (mainE osAlt).1 = 1 ∧
    (∀ a c w, Event.createProcessCall a c w ∉ (mainE osAlt).2) ∧
    (∃ m pre post,
      (mainE osAlt).2 =
        [Event.messageBoxCall m "IMAPViewer Launcher Error",
         Event.stderrWrite m] ∧
      m = pre ++ targetPathOf osAlt ++ post) :=
  existence_gate osAlt rfl rfl rfl rfl

/-- C4: the target path computed from a launcher directory `D` is exactly
`D`, a backslash, the subpath `app`, a backslash, and `imapviewer.exe`;
and the path computed by a run depends only on the resolved module file
name, not on the working directory, environment, arguments or any other
oracle answer. -/
theorem path_derivation :
    (∀ D, targetExeOf D = D ++ "\\" ++ "app" ++ "\\" ++ "imapviewer.exe") ∧
    (∀ os os2 : OS, os.moduleFileName = os2.moduleFileName →
      targetPathOf os = targetPathOf os2) := by
  constructor
  · intro D
    show D ++ "\\app\\imapviewer.exe" =
      D ++ "\\" ++ "app" ++ "\\" ++ "imapviewer.exe"
    rw [String.append_assoc, String.append_assoc, String.append_assoc]
    exact congrArg (fun s => D ++ s)
      (by decide :
        ("\\app\\imapviewer.exe" : String) =
          "\\" ++ ("app" ++ ("\\" ++ "imapviewer.exe")))
  · intro os os2 h
    simp [targetPathOf, launcherDirOf, h]

theorem path_derivation_witness :
    targetExeOf "C:\\IMAPViewer" =
      "C:\\IMAPViewer" ++ "\\" ++ "app" ++ "\\" ++ "imapviewer.exe" ∧
    targetPathOf osOk = targetPathOf osAlt :=
  ⟨path_derivation.1 "C:\\IMAPViewer", path_derivation.2 osOk osAlt rfl⟩

/-- C5: every run makes at most one `CreateProcessW` call, and a run that
reaches the launch step (no exception before it, existence check passed)
makes exactly one, whether or not the spawn succeeds. -/
theorem single_spawn (os : OS) :
    (mainE os).2.countP isCreate ≤ 1 ∧
    (noThrow os → os.existsOutcome (targetPathOf os) = .ok true →
      (mainE os).2.countP isCreate = 1) := by
  constructor
  · rcases htb : tryBody os with ⟨e, t⟩ | ⟨c, t⟩
    · rw [mainE_of_error os e t htb, tryBody_error_trace os e t htb]
      simp [ShowError, isCreate, List.countP_cons, List.countP_nil]
    · rw [mainE_of_ok os c t htb]
      rcases tryBody_ok_shape os c t htb with ⟨_, he⟩ | ⟨_, _, he⟩ |
          ⟨hp, hth, _, he⟩ <;> subst he <;>
        simp [ShowError, isCreate, List.countP_cons, List.countP_nil]
  · rintro ⟨h1, h2, h3, h4, h5⟩ hex
    have hL := tryBody_launch os h1 h2 hex h4
    rcases hcp : os.createProcessOutcome (targetPathOf os)
        ("\"" ++ targetPathOf os ++ "\"") (appDirOf (launcherDirOf os)) with
        _ | ⟨hp, hth⟩
    · rw [launch_spawnFail os _ _ h5 hcp] at hL
      rw [mainE_of_ok os _ _ hL]
      simp [isCreate, List.countP_cons, List.countP_nil]
    · rw [launch_spawnOk os _ _ hp hth h5 hcp] at hL
      rw [mainE_of_ok os _ _ hL]
      simp [isCreate, List.countP_cons, List.countP_nil]

theorem single_spawn_witness :
    (mainE osOk).2.countP isCreate ≤ 1 ∧
    (mainE osOk).2.countP isCreate = 1 :=
  ⟨(single_spawn osOk).1, (single_spawn osOk).2 (by decide) rfl⟩

/-- C6: whenever a run actually called `CreateProcessW` and the call
returned a process handle and a thread handle, both handles are closed
before the launcher returns. -/
theorem handle_cleanup (os : OS) (a c w : String) (hp hth : Nat)
    (hmem : Event.createProcessCall a c w ∈ (mainE os).2)
    (hout : os.createProcessOutcome a c w = some (hp, hth)) :
    Event.closeHandleCall hp ∈ (mainE os).2 ∧
    Event.closeHandleCall hth ∈ (mainE os).2 := by
  obtain ⟨ha, hc, hw⟩ := create_event_args os a c w hmem
  subst ha; subst hc; subst hw
  rcases htb : tryBody os with ⟨e, t⟩ | ⟨cc, t⟩
  · rw [mainE_of_error os e t htb, tryBody_error_trace os e t htb] at hmem
    simp [ShowError] at hmem
  · rw [mainE_of_ok os cc t htb] at hmem ⊢
    rcases tryBody_ok_shape os cc t htb with ⟨_, he⟩ | ⟨_, hnone, he⟩ |
        ⟨hp2, hth2, hsome, he⟩
    · subst he; simp [ShowError] at hmem
    · rw [hout] at hnone; cases hnone
    · rw [hout] at hsome
      simp only [Option.some.injEq, Prod.mk.injEq] at hsome
      obtain ⟨e1, e2⟩ := hsome
      subst e1; subst e2; subst he
      simp

theorem handle_cleanup_witness :
    Event.closeHandleCall 7 ∈ (mainE osOk).2 ∧
    Event.closeHandleCall 8 ∈ (mainE osOk).2 :=
  handle_cleanup osOk (targetPathOf osOk)
    ("\"" ++ targetPathOf osOk ++ "\"") (appDirOf (launcherDirOf osOk))
    7 8 (by decide) rfl

/-- C7: any exception escaping the launch sequence is caught at the top
level of `main`: the run exits with code `1` and appends exactly one
error report (a modal dialog plus the same text on the error stream)
whose message is determined by the caught exception. -/
theorem top_level_catch (os : OS) (e : Exn) (t : List Event)
    (h : tryBody os = .error (e, t)) :
    (mainE os).1 = 1 ∧
    (mainE os).2 =
      t ++ [Event.messageBoxCall (catchMessage e) "IMAPViewer Launcher Error",
            Event.stderrWrite (catchMessage e)] := by
  rw [mainE_of_error os e t h]
  exact ⟨rfl, rfl⟩

theorem top_level_catch_witness :
    (mainE osThrow).1 = 1 ∧
    (mainE osThrow).2 =
      [] ++ [Event.messageBoxCall (catchMessage (Exn.stdExn "bad alloc"))
               "IMAPViewer Launcher Error",
             Event.stderrWrite (catchMessage (Exn.stdExn "bad alloc"))] :=
  top_level_catch osThrow (Exn.stdExn "bad alloc") [] rfl

/-- C8: every `CreateProcessW` call a run makes receives as command line
exactly the target executable path enclosed in double quotes, and the
run's behaviour does not change when the launcher's own command-line
arguments change (they are never forwarded). -/
theorem child_command_line (os : OS) (a c w : String)
    (hmem : Event.createProcessCall a c w ∈ (mainE os).2) :
    c = "\"" ++ a ++ "\"" ∧ a = targetPathOf os ∧
    (∀ l, mainE {os with args := l} = mainE os) := by
  obtain ⟨ha, hc, hw⟩ := create_event_args os a c w hmem
  exact ⟨by rw [hc, ha], ha, fun l => rfl⟩

theorem child_command_line_witness :
    ("\"" ++ targetPathOf osOk ++ "\"") =
      "\"" ++ targetPathOf osOk ++ "\"" ∧
    targetPathOf osOk = targetPathOf osOk ∧
    (∀ l, mainE {osOk with args := l} = mainE osOk) :=
  child_command_line osOk (targetPathOf osOk)
    ("\"" ++ targetPathOf osOk ++ "\"") (appDirOf (launcherDirOf osOk))
    (by decide)

/-- C9: every `CreateProcessW` call a run makes receives as working
directory exactly the launcher's own directory joined with `\app`. -/
theorem child_working_directory (os : OS) (a c w : String)
    (hmem : Event.createProcessCall a c w ∈ (mainE os).2) :
    w = appDirOf (launcherDirOf os) ∧
    appDirOf (launcherDirOf os) = launcherDirOf os ++ "\\app" := by
  obtain ⟨ha, hc, hw⟩ := create_event_args os a c w hmem
  exact ⟨hw, rfl⟩

theorem child_working_directory_witness :
    appDirOf (launcherDirOf osOk) = appDirOf (launcherDirOf osOk) ∧
    appDirOf (launcherDirOf osOk) = launcherDirOf osOk ++ "\\app" :=
  child_working_directory osOk (targetPathOf osOk)
    ("\"" ++ targetPathOf osOk ++ "\"") (appDirOf (launcherDirOf osOk))
    (by decide)

/-- C10: if the spawn succeeds, the wait completes, and the
`GetExitCodeProcess` query fails, the launcher exits with code `0` (the
pre-initialised value), shows no dialog and writes nothing to the error
stream, and the whole run is indistinguishable from one in which the
query succeeds with child exit code `0`. -/
theorem exit_query_failure_silent_zero (os : OS) (hp hth : Nat)
    (hn : noThrow os)
    (hex : os.existsOutcome (targetPathOf os) = .ok true)
    (hcp : os.createProcessOutcome (targetPathOf os)
        ("\"" ++ targetPathOf os ++ "\"") (appDirOf (launcherDirOf os)) =
      some (hp, hth))
    (hec : os.exitCodeOutcome = none) :
    processExitCode os = 0 ∧
    (mainE os).2.countP isDialog = 0 ∧
    (∀ m, Event.stderrWrite m ∉ (mainE os).2) ∧
    mainE os = mainE {os with exitCodeOutcome := some 0} := by
  obtain ⟨h1, h2, h3, h4, h5⟩ := hn
  have hL := tryBody_launch os h1 h2 hex h4
  rw [launch_spawnOk os _ _ hp hth h5 hcp] at hL
  have hm := mainE_of_ok os _ _ hL
  have hL2 : tryBody {os with exitCodeOutcome := some 0} =
      LaunchApplication {os with exitCodeOutcome := some 0}
        (targetPathOf os) (appDirOf (launcherDirOf os)) :=
    tryBody_launch {os with exitCodeOutcome := some 0} h1 h2 hex h4
  rw [launch_spawnOk {os with exitCodeOutcome := some 0} (targetPathOf os)
      (appDirOf (launcherDirOf os)) hp hth h5 hcp] at hL2
  have hm2 : mainE {os with exitCodeOutcome := some 0} =
      (int32OfUInt32 (0 % 2 ^ 32),
       [Event.createProcessCall (targetPathOf os)
          ("\"" ++ targetPathOf os ++ "\"") (appDirOf (launcherDirOf os)),
        Event.waitCall hp, Event.getExitCodeCall hp,
        Event.closeHandleCall hp, Event.closeHandleCall hth]) :=
    mainE_of_ok {os with exitCodeOutcome := some 0} _ _ hL2
  refine ⟨?_, ?_, ?_, ?_⟩
  · unfold processExitCode
    rw [hm]
    simp only [hec]
    decide
  · rw [hm]
    simp [isDialog, List.countP_cons, List.countP_nil]
  · intro m hw
    rw [hm] at hw
    simp at hw
  · rw [hm, hm2, hec]
    norm_num

theorem exit_query_failure_silent_zero_witness :
    processExitCode osQueryFail = 0 ∧
    (mainE osQueryFail).2.countP isDialog = 0 ∧
    (∀ m, Event.stderrWrite m ∉ (mainE osQueryFail).2) ∧
    mainE osQueryFail = mainE {osQueryFail with exitCodeOutcome := some 0} :=
  exit_query_failure_silent_zero osQueryFail 7 8 (by decide) rfl rfl rfl
